import Mathlib

/-!
Verification of the grafana-irm-webhook server (src/api/app.py): a shallow
embedding of the LightbulbController and of the HTTP endpoint handlers that
call it, together with theorems settling the specification claims.

Hardware (the gpiod library) is modelled by an environment of success flags
for each primitive and an explicit hardware-line state; a Python exception is
an Except.error value, and each try/except block of the source maps an error
of its body to the logged fallback result the source returns.
-/

/-- One observable call into the gpiod hardware layer, or a sleep. -/
inductive HwEvent where
  | requestLines : Nat → Bool → HwEvent
  | setValue : Nat → Bool → HwEvent
  | release : HwEvent
  | sleepMs : Nat → HwEvent
  deriving DecidableEq, Repr

/-- Hardware environment: whether the gpiod library imported, and whether each
gpiod primitive succeeds or raises when called. -/
structure HwEnv where
  gpioAvailable : Bool
  requestLinesOk : Bool
  setValueOk : Bool
  getValueOk : Bool
  deriving DecidableEq, Repr

/-- The state of one LightbulbController instance: its Python attributes
(lightbulb_type, gpio_pin, gpio_initialized, gpio_request viewed as the flag
gpio_request is not None), the modelled hardware line value (true = ACTIVE),
and the trace of hardware calls and sleeps made so far. -/
structure CState where
  lightbulb_type : String
  gpio_pin : Nat
  gpio_initialized : Bool
  gpio_request : Bool
  lineValue : Bool
  trace : List HwEvent
  deriving DecidableEq, Repr

/-- The configuration dict built by load_config, with its source defaults. -/
structure Config where
  lightbulb_type : String := "raspberry_pi"
  gpio_pin : Nat := 17
  webhook_secret : Option String := none
  port : Nat := 5000
  debug : Bool := false
  deriving DecidableEq, Repr

/-- LightbulbController.__init__: stores the configured type and pin; GPIO is
not initialized (the eager initialization in __init__ is commented out in the
source). -/
def mkController (config : Config) : CState :=
  { lightbulb_type := config.lightbulb_type
    gpio_pin := config.gpio_pin
    gpio_initialized := false
    gpio_request := false
    lineValue := false
    trace := [] }

/-- The alert_data dict passed to the controller operations (the controller
never reads it; it is built from the alert group of the request). -/
structure AlertData where
  severity : Option String := none
  title : Option String := none
  event_type : String := ""
  deriving DecidableEq, Repr

/-- gpiod.request_lines on /dev/gpiochip0 with direction OUTPUT and
output_value ACTIVE: on success the line is acquired and driven active and the
request object is stored; on failure it raises. The attempt is recorded in the
trace either way. -/
def requestLinesCall (env : HwEnv) (s : CState) : CState × Except String Unit :=
  let s1 := { s with trace := s.trace ++ [HwEvent.requestLines s.gpio_pin true] }
  if env.requestLinesOk then
    ({ s1 with gpio_request := true, lineValue := true }, Except.ok ())
  else (s1, Except.error "request_lines failed")

/-- gpio_request.set_value: writes the line value, or raises on an I/O
failure. The attempt is recorded in the trace either way. -/
def setValueCall (env : HwEnv) (s : CState) (v : Bool) : CState × Except String Unit :=
  let s1 := { s with trace := s.trace ++ [HwEvent.setValue s.gpio_pin v] }
  if env.setValueOk then ({ s1 with lineValue := v }, Except.ok ())
  else (s1, Except.error "set_value failed")

/-- LightbulbController._init_gpio: returns False when gpiod is unavailable;
otherwise requests the line, sets gpio_initialized on success, and its except
clause turns a raised error into a logged False. -/
def init_gpio (env : HwEnv) (s : CState) : CState × Bool :=
  if !env.gpioAvailable then (s, false)
  else
    match requestLinesCall env s with
    | (s1, Except.ok _) => ({ s1 with gpio_initialized := true }, true)
    | (s1, Except.error _) => ({ s1 with gpio_initialized := false }, false)

/-- The body of LightbulbController._control_raspberry_pi_light inside its try
block: availability check, lazy initialization, request check, then the line
write; a raised error from set_value is carried in the Except value. -/
def control_body (env : HwEnv) (s : CState) (state : Bool) :
    CState × Except String Bool :=
  if !env.gpioAvailable then (s, Except.ok false)
  else
    let r := if !s.gpio_initialized then init_gpio env s else (s, true)
    if !r.2 then (r.1, Except.ok false)
    else if !r.1.gpio_request then (r.1, Except.ok false)
    else
      match setValueCall env r.1 state with
      | (s2, Except.ok _) => (s2, Except.ok true)
      | (s2, Except.error e) => (s2, Except.error e)

/-- A Python try/except around a boolean-returning body: a raised error is
logged and becomes the return value False. -/
def pyCatch (r : CState × Except String Bool) : CState × Bool :=
  match r with
  | (s, Except.ok b) => (s, b)
  | (s, Except.error _) => (s, false)

/-- LightbulbController._control_raspberry_pi_light: its body with its own
try/except. -/
def control_raspberry_pi_light (env : HwEnv) (s : CState) (state : Bool) :
    CState × Bool :=
  pyCatch (control_body env s state)

/-- LightbulbController.turn_on with its exception channel explicit: a value
Except.error would be an exception escaping to the caller. The alert_data
argument is never read by the controller. -/
def turn_onE (env : HwEnv) (s : CState) (_alert_data : AlertData) :
    CState × Except String Bool :=
  if s.lightbulb_type = "raspberry_pi" then
    let r := control_raspberry_pi_light env s true
    (r.1, Except.ok r.2)
  else (s, Except.ok false)

/-- LightbulbController.turn_off with its exception channel explicit. -/
def turn_offE (env : HwEnv) (s : CState) (_alert_data : AlertData) :
    CState × Except String Bool :=
  if s.lightbulb_type = "raspberry_pi" then
    let r := control_raspberry_pi_light env s false
    (r.1, Except.ok r.2)
  else (s, Except.ok false)

/-- LightbulbController.turn_on as the caller sees it: the surrounding
try/except converts any escaping error into a logged False. -/
def turn_on (env : HwEnv) (s : CState) (alert_data : AlertData) : CState × Bool :=
  pyCatch (turn_onE env s alert_data)

/-- LightbulbController.turn_off as the caller sees it. -/
def turn_off (env : HwEnv) (s : CState) (alert_data : AlertData) : CState × Bool :=
  pyCatch (turn_offE env s alert_data)

/-- time.sleep, recorded in the trace in milliseconds. -/
def pysleep (s : CState) (ms : Nat) : CState :=
  { s with trace := s.trace ++ [HwEvent.sleepMs ms] }

/-- LightbulbController.blink: on, sleep 1s, off, sleep 1s, on, sleep 1s, off,
then return True; the boolean results of the inner calls are ignored. -/
def blink (env : HwEnv) (s : CState) (alert_data : AlertData) : CState × Bool :=
  let r1 := turn_on env s alert_data
  let s2 := pysleep r1.1 1000
  let r2 := turn_off env s2 alert_data
  let s3 := pysleep r2.1 1000
  let r3 := turn_on env s3 alert_data
  let s4 := pysleep r3.1 1000
  let r4 := turn_off env s4 alert_data
  (r4.1, true)

/-- LightbulbController.get_status: for a raspberry_pi controller with an
initialized line it reads the hardware value (error on a failed read); when
not initialized it reports off; for any other lightbulb type it reports
unknown. -/
def get_status (env : HwEnv) (s : CState) : String :=
  if s.lightbulb_type = "raspberry_pi" then
    if s.gpio_initialized && s.gpio_request && env.gpioAvailable then
      if env.getValueOk then (if s.lineValue then "on" else "off") else "error"
    else "off"
  else "unknown"

/-- LightbulbController.cleanup_gpio: drives the line inactive through
_control_raspberry_pi_light (ignoring its result), releases the request object
if one is held, and clears gpio_request and gpio_initialized. -/
def cleanup_gpio (env : HwEnv) (s : CState) : CState :=
  let r := control_raspberry_pi_light env s false
  let s2 := if r.1.gpio_request
    then { r.1 with trace := r.1.trace ++ [HwEvent.release] } else r.1
  { s2 with gpio_request := false, gpio_initialized := false }

/-- An environment where gpiod is available and every primitive succeeds. -/
def envOk : HwEnv :=
  { gpioAvailable := true, requestLinesOk := true, setValueOk := true, getValueOk := true }

/-- An environment where the gpiod library is not installed. -/
def envNoHw : HwEnv :=
  { gpioAvailable := false, requestLinesOk := true, setValueOk := true, getValueOk := true }

example : (turn_on envOk (mkController {}) {}).2 = true := by decide

example : (cleanup_gpio envOk (mkController {})).trace =
    [HwEvent.requestLines 17 true, HwEvent.setValue 17 false, HwEvent.release] := by
  decide

/-! The HTTP layer: the pydantic request models of src/api/app.py and the
endpoint handlers, as functions of the environment, the controller state and
the parsed request. Wall-clock timestamps (datetime.utcnow) enter as the
parameter now. -/

/-- The pydantic AlertGroup model with its source defaults. -/
structure AlertGroup where
  id : Option String := none
  title : Option String := none
  severity : Option String := some "warning"
  status : Option String := some "firing"
  created_at : Option String := none
  resolved_at : Option String := none
  deriving DecidableEq, Repr

/-- The pydantic AlertPayload model. -/
structure AlertPayload where
  message : Option String := none
  labels : Option (List (String × String)) := none
  annotations : Option (List (String × String)) := none
  deriving DecidableEq, Repr

/-- The pydantic GrafanaWebhookPayload model. -/
structure GrafanaWebhookPayload where
  event_type : Option String := none
  alert_group : Option AlertGroup := none
  alert_payload : Option AlertPayload := none
  deriving DecidableEq, Repr

/-- An HTTP response: the status code and the JSON fields the handlers emit
(fields of WebhookResponse and HealthResponse, the detail of an
HTTPException, and the message and status of the JSONResponse bodies). -/
structure HttpResponse where
  statusCode : Nat
  status : Option String := none
  action : Option String := none
  alert_title : Option String := none
  message : Option String := none
  detail : Option String := none
  timestamp : Option String := none
  lightbulb_type : Option String := none
  deriving DecidableEq, Repr

/-- The alert_data dict the webhook handler builds from the defaulted alert
group and event type (the parts the model keeps; the controller reads none
of it). -/
def webhook_alert_data (alert_group : AlertGroup) (event_type : String) : AlertData :=
  { severity := alert_group.severity, title := alert_group.title
    event_type := event_type }

/-- GET /health. -/
def health_check (config : Config) (now : String) : HttpResponse :=
  { statusCode := 200, status := some "healthy", timestamp := some now
    lightbulb_type := some config.lightbulb_type }

/-- POST /webhook/grafana-irm: defaults the missing parts of the payload,
treats the event as resolved when event_type is alert_group_resolved or the
alert group status is resolved, calls turn_off or turn_on accordingly, and
answers 200 on success or 500 with a detail message on failure. -/
def grafana_irm_webhook (env : HwEnv) (s : CState)
    (payload : GrafanaWebhookPayload) (now : String) : CState × HttpResponse :=
  let alert_group := payload.alert_group.getD {}
  let event_type := (payload.event_type.getD "")
  let is_resolved : Bool :=
    event_type == "alert_group_resolved" || alert_group.status == some "resolved"
  let alert_data := webhook_alert_data alert_group event_type
  let r := if is_resolved then turn_off env s alert_data
           else turn_on env s alert_data
  let action := if is_resolved then "turned off" else "turned on"
  if r.2 then
    (r.1, { statusCode := 200, status := some "success", action := some action
            alert_title := some (alert_group.title.getD "Unknown")
            timestamp := some now })
  else
    (r.1, { statusCode := 500
            detail := some ("Failed to " ++ action ++ " lightbulb") })

/-- The synthetic warning alert the test endpoint sends. -/
def test_alert_data : AlertData :=
  { severity := some "warning", title := some "Test Alert"
    event_type := "alert_group_created" }

/-- POST /webhook/test: forces turn_on with a synthetic warning alert. -/
def test_webhook (env : HwEnv) (s : CState) (now : String) : CState × HttpResponse :=
  let r := turn_on env s test_alert_data
  if r.2 then
    (r.1, { statusCode := 200, status := some "success"
            message := some "Test lightbulb control successful"
            timestamp := some now })
  else (r.1, { statusCode := 500, detail := some "Test lightbulb control failed" })

/-- POST /api/led/on: calls turn_on with an empty dict and answers 200; the
boolean result of turn_on is not examined. -/
def led_on (env : HwEnv) (s : CState) : CState × HttpResponse :=
  let r := turn_on env s {}
  (r.1, { statusCode := 200, message := some "LED turned on" })

/-- POST /api/led/off: calls turn_off and answers 200; the boolean result is
not examined. -/
def led_off (env : HwEnv) (s : CState) : CState × HttpResponse :=
  let r := turn_off env s {}
  (r.1, { statusCode := 200, message := some "LED turned off" })

/-- POST /api/led/blink: calls blink and answers 200; the boolean result is
not examined. -/
def led_blink (env : HwEnv) (s : CState) : CState × HttpResponse :=
  let r := blink env s {}
  (r.1, { statusCode := 200, message := some "LED blinked" })

/-- GET /api/led/status. -/
def led_status (env : HwEnv) (s : CState) : CState × HttpResponse :=
  (s, { statusCode := 200, message := some "LED status"
        status := some (get_status env s) })

/-! The spec side of claim C1: the severity-keyed blink-pattern table of the
specification, and the hardware-event sequence executing it would produce.
The source of src/api/app.py defines no such table; these definitions state
the claim so it can be compared with the code. -/

/-- Modelled from the spec: blink_pattern, the severity to
(on-duration, off-duration, repeats) table of section 4.1, durations in
milliseconds. No such mapping exists in src/api/app.py. -/
def spec_blink_pattern (severity : String) : Nat × Nat × Nat :=
  if severity = "critical" then (100, 100, 5)
  else if severity = "high" then (200, 200, 3)
  else if severity = "warning" then (500, 500, 2)
  else if severity = "info" then (1000, 500, 1)
  else if severity = "low" then (300, 300, 1)
  else (500, 500, 2)

/-- Modelled from the spec: the hardware events that executing the blink
pattern of a severity on a pin would emit, alternating active and inactive
repeats times with the final off-pause omitted, then forcing the line back to
active. -/
def spec_pattern_events (pin : Nat) (severity : String) : List HwEvent :=
  let p := spec_blink_pattern severity
  (List.range p.2.2).flatMap (fun i =>
    [HwEvent.setValue pin true, HwEvent.sleepMs p.1] ++
    (if i + 1 = p.2.2 then []
     else [HwEvent.setValue pin false, HwEvent.sleepMs p.2.1])) ++
  [HwEvent.setValue pin true]

/-- The number of sleeps in a trace. -/
def sleepCount (tr : List HwEvent) : Nat :=
  (tr.filter fun e => match e with
    | HwEvent.sleepMs _ => true
    | _ => false).length

/-- The number of writes driving the line inactive in a trace. -/
def offWriteCount (tr : List HwEvent) : Nat :=
  (tr.filter fun e => match e with
    | HwEvent.setValue _ false => true
    | _ => false).length

/-- A critical firing alert, as the webhook handler would hand it to turn_on. -/
def alert_critical : AlertData :=
  { severity := some "critical", title := some "X"
    event_type := "alert_group_created" }

/-- A controller configured with an unsupported lightbulb type. -/
def hueController : CState := mkController { lightbulb_type := "hue" }

/-- A payload whose event_type marks the alert group as resolved. -/
def resolved_payload : GrafanaWebhookPayload :=
  { event_type := some "alert_group_resolved"
    alert_group := some { title := some "X", severity := some "critical"
                          status := some "firing" } }

/-! Helper lemmas about the controller operations. -/

theorem sleepCount_append (t1 t2 : List HwEvent) :
    sleepCount (t1 ++ t2) = sleepCount t1 + sleepCount t2 := by
  simp [sleepCount, List.filter_append]

theorem offWriteCount_append (t1 t2 : List HwEvent) :
    offWriteCount (t1 ++ t2) = offWriteCount t1 + offWriteCount t2 := by
  simp [offWriteCount, List.filter_append]

theorem control_no_sleep (env : HwEnv) (s : CState) (st : Bool) :
    sleepCount (control_raspberry_pi_light env s st).1.trace = sleepCount s.trace := by
  rcases env with ⟨ga, rl, sv, gv⟩
  rcases s with ⟨lt, pin, gi, gr, lv, tr⟩
  cases ga <;> cases rl <;> cases sv <;> cases gi <;> cases gr <;>
    simp [control_raspberry_pi_light, control_body, init_gpio, requestLinesCall,
      setValueCall, pyCatch, sleepCount_append, sleepCount]

theorem control_on_no_off_write (env : HwEnv) (s : CState) :
    offWriteCount (control_raspberry_pi_light env s true).1.trace =
      offWriteCount s.trace := by
  rcases env with ⟨ga, rl, sv, gv⟩
  rcases s with ⟨lt, pin, gi, gr, lv, tr⟩
  cases ga <;> cases rl <;> cases sv <;> cases gi <;> cases gr <;>
    simp [control_raspberry_pi_light, control_body, init_gpio, requestLinesCall,
      setValueCall, pyCatch, offWriteCount_append, offWriteCount]

theorem control_success_line (env : HwEnv) (s : CState) (st : Bool) :
    (control_raspberry_pi_light env s st).2 = true →
    (control_raspberry_pi_light env s st).1.lineValue = st := by
  rcases env with ⟨ga, rl, sv, gv⟩
  rcases s with ⟨lt, pin, gi, gr, lv, tr⟩
  cases ga <;> cases rl <;> cases sv <;> cases gi <;> cases gr <;>
    simp [control_raspberry_pi_light, control_body, init_gpio, requestLinesCall,
      setValueCall, pyCatch]

theorem control_preserves_type (env : HwEnv) (s : CState) (st : Bool) :
    (control_raspberry_pi_light env s st).1.lightbulb_type = s.lightbulb_type := by
  rcases env with ⟨ga, rl, sv, gv⟩
  rcases s with ⟨lt, pin, gi, gr, lv, tr⟩
  cases ga <;> cases rl <;> cases sv <;> cases gi <;> cases gr <;>
    simp [control_raspberry_pi_light, control_body, init_gpio, requestLinesCall,
      setValueCall, pyCatch]

theorem control_false_cases (env : HwEnv) (s : CState) (st : Bool)
    (h : env.gpioAvailable = false ∨
      (s.gpio_initialized = false ∧ env.requestLinesOk = false) ∨
      env.setValueOk = false) :
    (control_raspberry_pi_light env s st).2 = false := by
  rcases env with ⟨ga, rl, sv, gv⟩
  rcases s with ⟨lt, pin, gi, gr, lv, tr⟩
  simp only at h
  cases ga <;> cases rl <;> cases sv <;> cases gi <;> cases gr <;>
    simp_all [control_raspberry_pi_light, control_body, init_gpio, requestLinesCall,
      setValueCall, pyCatch]

theorem turn_on_eq_control (env : HwEnv) (s : CState) (a : AlertData)
    (h : s.lightbulb_type = "raspberry_pi") :
    turn_on env s a = control_raspberry_pi_light env s true := by
  simp [turn_on, turn_onE, pyCatch, h]

theorem turn_off_eq_control (env : HwEnv) (s : CState) (a : AlertData)
    (h : s.lightbulb_type = "raspberry_pi") :
    turn_off env s a = control_raspberry_pi_light env s false := by
  simp [turn_off, turn_offE, pyCatch, h]

theorem turn_on_not_pi (env : HwEnv) (s : CState) (a : AlertData)
    (h : ¬ s.lightbulb_type = "raspberry_pi") :
    turn_on env s a = (s, false) := by
  simp [turn_on, turn_onE, pyCatch, h]

theorem turn_off_not_pi (env : HwEnv) (s : CState) (a : AlertData)
    (h : ¬ s.lightbulb_type = "raspberry_pi") :
    turn_off env s a = (s, false) := by
  simp [turn_off, turn_offE, pyCatch, h]

theorem cleanup_request_cleared (env : HwEnv) (s : CState) :
    (cleanup_gpio env s).gpio_request = false := rfl

theorem cleanup_initialized_cleared (env : HwEnv) (s : CState) :
    (cleanup_gpio env s).gpio_initialized = false := rfl

theorem cleanup_preserves_type (env : HwEnv) (s : CState) :
    (cleanup_gpio env s).lightbulb_type = s.lightbulb_type := by
  by_cases h : (control_raspberry_pi_light env s false).1.gpio_request = true <;>
    simp [cleanup_gpio, h, control_preserves_type]

theorem get_status_of_uninit (env : HwEnv) (s : CState)
    (h : s.gpio_initialized = false) :
    get_status env s =
      if s.lightbulb_type = "raspberry_pi" then "off" else "unknown" := by
  simp [get_status, h]

/-! The claims. -/

/-- C1 counterexample: on a fresh raspberry_pi controller with fully working
hardware, handed a critical alert (severity present), turn_on emits only the
lazy line acquisition and one active write; the severity-keyed blink pattern
the claim requires (nineteen events for critical) is nowhere in its trace. -/
theorem turn_on_critical_no_pattern_executed :
    alert_critical.severity = some "critical" ∧
    (turn_on envOk (mkController {}) alert_critical).1.trace =
      [HwEvent.requestLines 17 true, HwEvent.setValue 17 true] ∧
    ¬ List.IsInfix (spec_pattern_events 17 "critical")
      ((turn_on envOk (mkController {}) alert_critical).1.trace) := by
  refine ⟨rfl, by decide, by decide⟩

/-- C1 amended: turn_on executes no blink pattern at all: it adds no sleep and
no inactive write to the trace, its behavior does not depend on the alert
argument (so not on the severity), and when it reports success it leaves the
line active. -/
theorem turn_on_executes_no_blink_pattern (env : HwEnv) (s : CState)
    (a : AlertData) :
    sleepCount (turn_on env s a).1.trace = sleepCount s.trace ∧
    offWriteCount (turn_on env s a).1.trace = offWriteCount s.trace ∧
    ((turn_on env s a).2 = true → (turn_on env s a).1.lineValue = true) ∧
    (∀ a2 : AlertData, turn_on env s a2 = turn_on env s a) := by
  by_cases h : s.lightbulb_type = "raspberry_pi"
  · refine ⟨?_, ?_, ?_, ?_⟩
    · rw [turn_on_eq_control env s a h]; exact control_no_sleep env s true
    · rw [turn_on_eq_control env s a h]; exact control_on_no_off_write env s
    · rw [turn_on_eq_control env s a h]; exact control_success_line env s true
    · intro a2; rw [turn_on_eq_control env s a h, turn_on_eq_control env s a2 h]
  · refine ⟨?_, ?_, ?_, ?_⟩
    · rw [turn_on_not_pi env s a h]
    · rw [turn_on_not_pi env s a h]
    · rw [turn_on_not_pi env s a h]; simp
    · intro a2; rw [turn_on_not_pi env s a h, turn_on_not_pi env s a2 h]

/-- Witness for the amended C1 at a concrete input. -/
theorem turn_on_executes_no_blink_pattern_witness :
    sleepCount (turn_on envOk (mkController {}) alert_critical).1.trace =
      sleepCount (mkController {}).trace ∧
    (turn_on envOk (mkController {}) alert_critical).1.lineValue = true :=
  ⟨(turn_on_executes_no_blink_pattern envOk (mkController {}) alert_critical).1,
   (turn_on_executes_no_blink_pattern envOk (mkController {}) alert_critical).2.2.1
     (by decide)⟩

/-- C3 counterexample: a freshly constructed controller whose configured type
is not raspberry_pi answers unknown, not off, before any control call. -/
theorem get_status_fresh_unsupported_unknown :
    get_status envOk (mkController { lightbulb_type := "tasmota" }) = "unknown" ∧
    get_status envOk (mkController { lightbulb_type := "tasmota" }) ≠ "off" := by
  decide

/-- C3 amended: before any control call (the line never initialized), a
raspberry_pi controller reports off, and never error; a controller of any
other configured type reports unknown. -/
theorem get_status_before_any_control (env : HwEnv) (s : CState)
    (h : s.gpio_initialized = false) :
    (s.lightbulb_type = "raspberry_pi" → get_status env s = "off") ∧
    (¬ s.lightbulb_type = "raspberry_pi" → get_status env s = "unknown") := by
  constructor <;> intro ht <;> simp [get_status_of_uninit env s h, ht]

/-- Witness for the amended C3 on a freshly constructed default controller. -/
theorem get_status_before_any_control_witness :
    get_status envOk (mkController {}) = "off" :=
  (get_status_before_any_control envOk (mkController {}) rfl).1 rfl

/-- C4: turn_on and turn_off never let an exception cross the controller
boundary: their result is always Except.ok of a boolean, and each
hardware-layer failure (library missing, acquisition failure, write failure)
as well as an unsupported type yields the boolean False. -/
theorem controller_boundary_no_exceptions (env : HwEnv) (s : CState)
    (a : AlertData) :
    (∃ b, (turn_onE env s a).2 = Except.ok b) ∧
    (∃ b, (turn_offE env s a).2 = Except.ok b) ∧
    (s.lightbulb_type = "raspberry_pi" →
      (env.gpioAvailable = false ∨
        (s.gpio_initialized = false ∧ env.requestLinesOk = false) ∨
        env.setValueOk = false) →
      (turn_onE env s a).2 = Except.ok false ∧
      (turn_offE env s a).2 = Except.ok false) ∧
    (¬ s.lightbulb_type = "raspberry_pi" →
      (turn_onE env s a).2 = Except.ok false ∧
      (turn_offE env s a).2 = Except.ok false) := by
  refine ⟨?_, ?_, ?_, ?_⟩
  · by_cases h : s.lightbulb_type = "raspberry_pi" <;> simp [turn_onE, h]
  · by_cases h : s.lightbulb_type = "raspberry_pi" <;> simp [turn_offE, h]
  · intro h hf
    refine ⟨?_, ?_⟩
    · simp [turn_onE, h, control_false_cases env s true hf]
    · simp [turn_offE, h, control_false_cases env s false hf]
  · intro h
    exact ⟨by simp [turn_onE, h], by simp [turn_offE, h]⟩

/-- Witness for C4 in the environment without the gpiod library. -/
theorem controller_boundary_no_exceptions_witness :
    (turn_onE envNoHw (mkController {}) {}).2 = Except.ok false ∧
    (turn_offE envNoHw (mkController {}) {}).2 = Except.ok false :=
  (controller_boundary_no_exceptions envNoHw (mkController {}) {}).2.2.1 rfl
    (Or.inl rfl)

/-- C5 counterexample: on a controller of an unsupported type, blink returns
True, not a failure result. -/
theorem blink_unsupported_returns_true :
    hueController.lightbulb_type ≠ "raspberry_pi" ∧
    (blink envOk hueController {}).2 = true := by decide

/-- C5 amended: for an unsupported lightbulb type, turn_on and turn_off log an
error and return False without touching the state (so without hardware
access); blink also performs no hardware access (its trace gains only the
three sleeps) but returns True regardless. -/
theorem unsupported_type_operations (env : HwEnv) (s : CState) (a : AlertData)
    (h : ¬ s.lightbulb_type = "raspberry_pi") :
    turn_on env s a = (s, false) ∧
    turn_off env s a = (s, false) ∧
    blink env s a =
      ({ s with trace := s.trace ++
          [HwEvent.sleepMs 1000, HwEvent.sleepMs 1000, HwEvent.sleepMs 1000] },
       true) := by
  refine ⟨turn_on_not_pi env s a h, turn_off_not_pi env s a h, ?_⟩
  simp [blink, pysleep, turn_on, turn_off, turn_onE, turn_offE, pyCatch, h]

/-- Witness for the amended C5 on the hue-typed controller. -/
theorem unsupported_type_operations_witness :
    turn_on envOk hueController {} = (hueController, false) ∧
    turn_off envOk hueController {} = (hueController, false) ∧
    blink envOk hueController {} =
      ({ hueController with trace := hueController.trace ++
          [HwEvent.sleepMs 1000, HwEvent.sleepMs 1000, HwEvent.sleepMs 1000] },
       true) :=
  unsupported_type_operations envOk hueController {} (by decide)

/-- C6 counterexample: cleanup twice on a controller of an unsupported type
raises nothing but leaves get_status at unknown, not off. -/
theorem cleanup_twice_unsupported_not_off :
    get_status envOk (cleanup_gpio envOk (cleanup_gpio envOk hueController)) ≠
      "off" ∧
    get_status envOk (cleanup_gpio envOk (cleanup_gpio envOk hueController)) =
      "unknown" := by
  decide

/-- C6 amended: cleanup is total (it is a function) and calling it once or
twice on any controller state clears the initialization flag and releases the
handle; afterwards a raspberry_pi controller reports off, a controller of any
other type reports unknown. -/
theorem cleanup_double_call (env : HwEnv) (s : CState) :
    (cleanup_gpio env s).gpio_request = false ∧
    (cleanup_gpio env s).gpio_initialized = false ∧
    (cleanup_gpio env (cleanup_gpio env s)).gpio_request = false ∧
    (cleanup_gpio env (cleanup_gpio env s)).gpio_initialized = false ∧
    (s.lightbulb_type = "raspberry_pi" →
      get_status env (cleanup_gpio env s) = "off" ∧
      get_status env (cleanup_gpio env (cleanup_gpio env s)) = "off") ∧
    (¬ s.lightbulb_type = "raspberry_pi" →
      get_status env (cleanup_gpio env (cleanup_gpio env s)) = "unknown") := by
  have t1 := cleanup_preserves_type env s
  have t2 := cleanup_preserves_type env (cleanup_gpio env s)
  refine ⟨rfl, rfl, rfl, rfl, ?_, ?_⟩
  · intro h
    constructor <;>
      rw [get_status_of_uninit env _ (cleanup_initialized_cleared env _)] <;>
      simp [t1, t2, h]
  · intro h
    rw [get_status_of_uninit env _ (cleanup_initialized_cleared env _)]
    simp [t1, t2, h]

/-- Witness for the amended C6 on a fresh default controller. -/
theorem cleanup_double_call_witness :
    get_status envOk (cleanup_gpio envOk (cleanup_gpio envOk (mkController {}))) =
      "off" ∧
    (cleanup_gpio envOk (cleanup_gpio envOk (mkController {}))).gpio_request =
      false ∧
    (cleanup_gpio envOk (cleanup_gpio envOk (mkController {}))).gpio_initialized =
      false :=
  ⟨((cleanup_double_call envOk (mkController {})).2.2.2.2.1 rfl).2,
   (cleanup_double_call envOk (mkController {})).2.2.1,
   (cleanup_double_call envOk (mkController {})).2.2.2.1⟩

/-- C7 counterexample: with the gpiod library missing, turn_on fails, yet the
endpoint POST /api/led/on still answers 200. -/
theorem led_on_ignores_controller_failure :
    (turn_on envNoHw (mkController {}) {}).2 = false ∧
    (led_on envNoHw (mkController {})).2.statusCode = 200 := by decide

/-- C2: the webhook treats an inbound payload as resolved, calling turn_off
and reporting the action turned off, exactly when event_type equals
alert_group_resolved or the defaulted alert group status equals resolved;
every other payload is treated as firing and turn_on is called. -/
theorem webhook_resolution_rule (env : HwEnv) (s : CState)
    (p : GrafanaWebhookPayload) (now : String) :
    ((p.event_type.getD "" = "alert_group_resolved" ∨
        (p.alert_group.getD {}).status = some "resolved") →
      grafana_irm_webhook env s p now =
        ((turn_off env s (webhook_alert_data (p.alert_group.getD {})
            (p.event_type.getD ""))).1,
         if (turn_off env s (webhook_alert_data (p.alert_group.getD {})
              (p.event_type.getD ""))).2 then
           { statusCode := 200, status := some "success"
             action := some "turned off"
             alert_title := some ((p.alert_group.getD {}).title.getD "Unknown")
             timestamp := some now }
         else { statusCode := 500
                detail := some "Failed to turned off lightbulb" })) ∧
    (¬ (p.event_type.getD "" = "alert_group_resolved" ∨
        (p.alert_group.getD {}).status = some "resolved") →
      grafana_irm_webhook env s p now =
        ((turn_on env s (webhook_alert_data (p.alert_group.getD {})
            (p.event_type.getD ""))).1,
         if (turn_on env s (webhook_alert_data (p.alert_group.getD {})
              (p.event_type.getD ""))).2 then
           { statusCode := 200, status := some "success"
             action := some "turned on"
             alert_title := some ((p.alert_group.getD {}).title.getD "Unknown")
             timestamp := some now }
         else { statusCode := 500
                detail := some "Failed to turned on lightbulb" })) := by
  constructor
  · intro h
    have hb : ((p.event_type.getD "" == "alert_group_resolved") ||
        ((p.alert_group.getD {}).status == some "resolved")) = true := by
      rcases h with h | h <;> simp [h]
    simp only [grafana_irm_webhook, hb, if_true]
    split <;> rfl
  · intro h
    rw [not_or] at h
    have hb : ((p.event_type.getD "" == "alert_group_resolved") ||
        ((p.alert_group.getD {}).status == some "resolved")) = false := by
      simp only [Bool.or_eq_false_iff, beq_eq_false_iff_ne]
      exact ⟨h.1, h.2⟩
    simp only [grafana_irm_webhook, hb, Bool.false_eq_true, if_false]
    split <;> rfl

/-- Witness for C2: a payload with event_type alert_group_resolved is turned
off. -/
theorem webhook_resolution_rule_witness :
    (grafana_irm_webhook envOk (mkController {}) resolved_payload "t").2.action =
      some "turned off" ∧
    (grafana_irm_webhook envOk (mkController {}) resolved_payload "t").2.statusCode =
      200 := by
  have h := (webhook_resolution_rule envOk (mkController {}) resolved_payload
    "t").1 (Or.inl rfl)
  rw [h]
  decide

/-- C7 amended: the two webhook endpoints convert a False controller return
into a 500 response with a descriptive detail message and perform exactly one
controller call (no retry: the resulting state is that of a single call); the
direct LED endpoints api led on, off and blink ignore the controller result
and always answer 200. -/
theorem http_layer_error_conversion (env : HwEnv) (s : CState)
    (p : GrafanaWebhookPayload) (now : String) :
    ((p.event_type.getD "" = "alert_group_resolved" ∨
        (p.alert_group.getD {}).status = some "resolved") →
      ((grafana_irm_webhook env s p now).2.statusCode = 500 ↔
        (turn_off env s (webhook_alert_data (p.alert_group.getD {})
          (p.event_type.getD ""))).2 = false) ∧
      (grafana_irm_webhook env s p now).1 =
        (turn_off env s (webhook_alert_data (p.alert_group.getD {})
          (p.event_type.getD ""))).1 ∧
      ((grafana_irm_webhook env s p now).2.statusCode = 500 →
        (grafana_irm_webhook env s p now).2.detail =
          some "Failed to turned off lightbulb")) ∧
    (¬ (p.event_type.getD "" = "alert_group_resolved" ∨
        (p.alert_group.getD {}).status = some "resolved") →
      ((grafana_irm_webhook env s p now).2.statusCode = 500 ↔
        (turn_on env s (webhook_alert_data (p.alert_group.getD {})
          (p.event_type.getD ""))).2 = false) ∧
      (grafana_irm_webhook env s p now).1 =
        (turn_on env s (webhook_alert_data (p.alert_group.getD {})
          (p.event_type.getD ""))).1 ∧
      ((grafana_irm_webhook env s p now).2.statusCode = 500 →
        (grafana_irm_webhook env s p now).2.detail =
          some "Failed to turned on lightbulb")) ∧
    ((test_webhook env s now).2.statusCode = 500 ↔
      (turn_on env s test_alert_data).2 = false) ∧
    ((test_webhook env s now).2.statusCode = 500 →
      (test_webhook env s now).2.detail = some "Test lightbulb control failed") ∧
    (test_webhook env s now).1 = (turn_on env s test_alert_data).1 ∧
    (led_on env s).2.statusCode = 200 ∧
    (led_on env s).1 = (turn_on env s {}).1 ∧
    (led_off env s).2.statusCode = 200 ∧
    (led_off env s).1 = (turn_off env s {}).1 ∧
    (led_blink env s).2.statusCode = 200 ∧
    (led_blink env s).1 = (blink env s {}).1 := by
  refine ⟨?_, ?_, ?_, ?_, ?_, rfl, rfl, rfl, rfl, rfl, rfl⟩
  · intro h
    have hb : ((p.event_type.getD "" == "alert_group_resolved") ||
        ((p.alert_group.getD {}).status == some "resolved")) = true := by
      rcases h with h | h <;> simp [h]
    cases hr : (turn_off env s (webhook_alert_data (p.alert_group.getD {})
        (p.event_type.getD ""))).2 <;>
      simp [grafana_irm_webhook, hb, hr]
  · intro h
    rw [not_or] at h
    have hb : ((p.event_type.getD "" == "alert_group_resolved") ||
        ((p.alert_group.getD {}).status == some "resolved")) = false := by
      simp only [Bool.or_eq_false_iff, beq_eq_false_iff_ne]
      exact ⟨h.1, h.2⟩
    cases hr : (turn_on env s (webhook_alert_data (p.alert_group.getD {})
        (p.event_type.getD ""))).2 <;>
      simp [grafana_irm_webhook, hb, hr]
  · cases hr : (turn_on env s test_alert_data).2 <;> simp [test_webhook, hr]
  · cases hr : (turn_on env s test_alert_data).2 <;> simp [test_webhook, hr]
  · cases hr : (turn_on env s test_alert_data).2 <;> simp [test_webhook, hr]

/-- Witness for the amended C7: with gpiod missing, the main webhook answers
500 with the detail message while the LED endpoint answers 200. -/
theorem http_layer_error_conversion_witness :
    ((grafana_irm_webhook envNoHw (mkController {}) {} "t").2.statusCode = 500 ↔
      (turn_on envNoHw (mkController {}) (webhook_alert_data
        (({} : GrafanaWebhookPayload).alert_group.getD {})
        (({} : GrafanaWebhookPayload).event_type.getD ""))).2 = false) ∧
    (led_on envNoHw (mkController {})).2.statusCode = 200 := by
  have h := http_layer_error_conversion envNoHw (mkController {}) {} "t"
  exact ⟨(h.2.1 (by decide)).1, h.2.2.2.2.2.1⟩

/-- C9: the configured webhook_secret is never checked against any inbound
request: two configurations differing only in webhook_secret produce the same
response from every endpoint on the same request (noninterference). -/
theorem webhook_secret_noninterference (cfg : Config) (sec1 sec2 : Option String)
    (env : HwEnv) (p : GrafanaWebhookPayload) (now : String) :
    health_check { cfg with webhook_secret := sec1 } now =
      health_check { cfg with webhook_secret := sec2 } now ∧
    grafana_irm_webhook env (mkController { cfg with webhook_secret := sec1 }) p now =
      grafana_irm_webhook env (mkController { cfg with webhook_secret := sec2 }) p now ∧
    test_webhook env (mkController { cfg with webhook_secret := sec1 }) now =
      test_webhook env (mkController { cfg with webhook_secret := sec2 }) now ∧
    led_on env (mkController { cfg with webhook_secret := sec1 }) =
      led_on env (mkController { cfg with webhook_secret := sec2 }) ∧
    led_off env (mkController { cfg with webhook_secret := sec1 }) =
      led_off env (mkController { cfg with webhook_secret := sec2 }) ∧
    led_blink env (mkController { cfg with webhook_secret := sec1 }) =
      led_blink env (mkController { cfg with webhook_secret := sec2 }) ∧
    led_status env (mkController { cfg with webhook_secret := sec1 }) =
      led_status env (mkController { cfg with webhook_secret := sec2 }) :=
  ⟨rfl, rfl, rfl, rfl, rfl, rfl, rfl⟩

/-- C10: cleanup on a never-initialized raspberry_pi controller with working
gpiod does touch the hardware: it lazily acquires the line with initial output
active, writes it inactive, releases the handle, and leaves both the
initialization flag and the request cleared. -/
theorem cleanup_uninitialized_touches_hardware (pin : Nat) (env : HwEnv)
    (h1 : env.gpioAvailable = true) (h2 : env.requestLinesOk = true)
    (h3 : env.setValueOk = true) :
    cleanup_gpio env (mkController { gpio_pin := pin }) =
      { lightbulb_type := "raspberry_pi", gpio_pin := pin
        gpio_initialized := false, gpio_request := false, lineValue := false
        trace := [HwEvent.requestLines pin true, HwEvent.setValue pin false,
                  HwEvent.release] } := by
  rcases env with ⟨ga, rl, sv, gv⟩
  cases ga <;> cases rl <;> cases sv <;> cases gv <;>
    simp_all [cleanup_gpio, control_raspberry_pi_light, control_body, init_gpio,
      requestLinesCall, setValueCall, pyCatch, mkController]

/-- Witness for C10 at pin 17 in the all-working environment. -/
theorem cleanup_uninitialized_touches_hardware_witness :
    cleanup_gpio envOk (mkController { gpio_pin := 17 }) =
      { lightbulb_type := "raspberry_pi", gpio_pin := 17
        gpio_initialized := false, gpio_request := false, lineValue := false
        trace := [HwEvent.requestLines 17 true, HwEvent.setValue 17 false,
                  HwEvent.release] } :=
  cleanup_uninitialized_touches_hardware 17 envOk rfl rfl rfl
